import Mathlib

/-!
Shallow embedding of `src/arch/aarch64/mm/physicalmem.rs` (the physical-memory
manager of the unikernel) and of the free-region pool engine it delegates to.

Modelling conventions:
* `usize` values are embedded as `Nat`; the kernel's subtraction sites are only
  meaningful when no underflow occurs, and the theorems carry the corresponding
  hypotheses where the claims need them.
* The two `static` cells (`PHYSICAL_FREE_LIST`, `TOTAL_MEMORY`) become an
  explicit `PhysMemState` threaded through each operation; the spinlock and the
  atomic orderings have no observable effect in this sequential embedding.
* The boot/kernel collaborators (`is_uhyve`, `get_limit`, `get_boot_info_address`,
  `get_ram_address`, kernel start/end, stack size) are fields of a `BootEnv`
  parameter.
* `Result<T, E>` becomes `Except E T`; a panicking assertion becomes the
  `panicked` constructor of `PanicOr`.
-/

/-- Base page size constant consumed from the paging collaborator
(`BasePageSize::SIZE`). Modelled from the spec: the base page size constant used
for alignment checks (§6); the aarch64 base page granule is 4 KiB. -/
def BasePageSize.SIZE : Nat := 0x1000

/-- Modelled from the spec: `align_down(addr, size)` rounds `addr` down to a
multiple of `size` (§4.1); the `align_down!` macro lives outside the given
sources. -/
def align_down (addr size : Nat) : Nat := addr / size * size

/-- Modelled from the spec: the lowest value at or after `addr` that is a
multiple of `size`, used by the pool's alignment-aware scan (§4.2). -/
def align_up (addr size : Nat) : Nat := align_down (addr + size - 1) size

/-- A half-open free region `[start, end)`, from `mm::freelist::FreeListEntry`
(fields `start` and `end`; `end` is a Lean keyword, hence `end_`). -/
structure FreeListEntry where
  start : Nat
  end_ : Nat
deriving Repr, DecidableEq

/-- The free-region pool (`mm::freelist::FreeList`), an ordered list of
disjoint regions. -/
structure FreeList where
  list : List FreeListEntry
deriving Repr, DecidableEq

/-- Appending a seed region at the back of the pool (`list.push_back`). -/
def FreeList.push_back (fl : FreeList) (e : FreeListEntry) : FreeList :=
  { list := fl.list ++ [e] }

/-- The manager's process-wide state: the two statics `PHYSICAL_FREE_LIST` and
`TOTAL_MEMORY` of `physicalmem.rs`. -/
structure PhysMemState where
  physical_free_list : FreeList
  total_memory : Nat
deriving Repr, DecidableEq

/-- The boot-time value of the statics: `FreeList::new()` (an empty pool;
modelled from the spec, `mm::freelist` is outside the given sources) and
`AtomicUsize::new(0)`. -/
def initialState : PhysMemState :=
  { physical_free_list := { list := [] }, total_memory := 0 }

/-- The boot/kernel collaborator values consumed by the detectors and the
deallocation contract (§6). -/
structure BootEnv where
  is_uhyve : Bool
  limit : Nat
  boot_info_address : Nat
  ram_address : Nat
  kernel_start_address : Nat
  kernel_end_address : Nat
  kernel_stack_size : Nat
deriving Repr, DecidableEq

/-- The recoverable allocation failure (`core::alloc::AllocError`), which the
spec calls `OutOfMemory`. -/
inductive AllocError where
  | OutOfMemory
deriving Repr, DecidableEq

/-- Outcome of an API entry point whose contract violations are fatal
assertions: either a panic with a diagnostic message, or a normal result. -/
inductive PanicOr (α : Type) where
  | panicked (msg : String)
  | ok (v : α)
deriving Repr, DecidableEq

/-- Whether an outcome is a fatal contract violation. -/
def PanicOr.isPanicked {α : Type} : PanicOr α → Bool
  | .panicked _ => true
  | .ok _ => false

/-- `detect_from_uhyve` of `physicalmem.rs`: the direct-boot detector. Not
applicable (`Err(())`) when the environment is not uhyve or the limit is zero;
otherwise stores `limit - kernel_end` into the counter and pushes the single
region `[kernel_end, limit)`. -/
def detect_from_uhyve (env : BootEnv) (s : PhysMemState) :
    Except Unit Unit × PhysMemState :=
  if !env.is_uhyve then (.error (), s)
  else
    let limit := env.limit
    if limit = 0 then (.error (), s)
    else
      let entry : FreeListEntry :=
        { start := env.kernel_end_address, end_ := limit }
      let s := { s with total_memory := limit - env.kernel_end_address }
      let s := { s with
        physical_free_list := s.physical_free_list.push_back entry }
      (.ok (), s)

/-- `detect_from_qemu` of `physicalmem.rs`: the emulated/full-boot detector.
The Rust body declares `let mut total` and then plainly reassigns it before
each push; the shadowed `let total` bindings below mirror those dead stores,
so only the last value reaches the counter. -/
def detect_from_qemu (env : BootEnv) (s : PhysMemState) :
    Except Unit Unit × PhysMemState :=
  let limit := env.limit
  if limit = 0 then (.error (), s)
  else
    let boot_info := align_down env.boot_info_address BasePageSize.SIZE
    let entry : FreeListEntry := { start := env.ram_address, end_ := boot_info }
    let total : Nat := boot_info - env.ram_address
    let s := { s with physical_free_list := s.physical_free_list.push_back entry }
    let entry : FreeListEntry :=
      { start := boot_info + BasePageSize.SIZE
        end_ := env.kernel_start_address - env.kernel_stack_size }
    let total :=
      env.kernel_start_address - env.kernel_stack_size - boot_info
        - BasePageSize.SIZE
    let s := { s with physical_free_list := s.physical_free_list.push_back entry }
    let entry : FreeListEntry := { start := env.kernel_end_address, end_ := limit }
    let total := limit - env.kernel_end_address
    let s := { s with physical_free_list := s.physical_free_list.push_back entry }
    let s := { s with total_memory := total }
    (.ok (), s)

/-- `init` of `physicalmem.rs`:
`detect_from_uhyve().or_else(|_e| detect_from_qemu()).expect(...)`. The
`expect` panic is the `Except.error` case, carrying the diagnostic message. -/
def init (env : BootEnv) (s : PhysMemState) : Except String PhysMemState :=
  match detect_from_uhyve env s with
  | (.ok _, s1) => .ok s1
  | (.error _, s1) =>
    match detect_from_qemu env s1 with
    | (.ok _, s2) => .ok s2
    | (.error _, _) => .error "Unable to determine physical address space!"

/-- `total_memory_size` of `physicalmem.rs`: lock-free read of the counter. -/
def total_memory_size (s : PhysMemState) : Nat := s.total_memory

/-- Modelled from the spec: the first-fit, alignment-aware carve-out of the
free-region pool engine (§4.2) — `mm::freelist::FreeList::allocate` is outside
the given sources. For each region in address order, the lowest aligned offset
at or after `start` wins if `offset + size <= end`; the carved range is removed,
leaving the surviving sub-regions in place. -/
def allocScan (align size : Nat) :
    List FreeListEntry → Except AllocError (Nat × List FreeListEntry)
  | [] => .error .OutOfMemory
  | e :: rest =>
    let offset := align_up e.start align
    if offset + size ≤ e.end_ then
      let before :=
        if e.start < offset then [({ start := e.start, end_ := offset } : FreeListEntry)]
        else []
      let after :=
        if offset + size < e.end_ then
          [({ start := offset + size, end_ := e.end_ } : FreeListEntry)]
        else []
      .ok (offset, before ++ after ++ rest)
    else
      match allocScan align size rest with
      | .ok (a, rest2) => .ok (a, e :: rest2)
      | .error er => .error er

/-- Modelled from the spec: `FreeList::allocate(size, alignment)` (§4.2); with
no explicit alignment the offset is base-page aligned. -/
def FreeList.allocate (fl : FreeList) (size : Nat) (alignment : Option Nat) :
    Except AllocError (Nat × FreeList) :=
  match allocScan (alignment.getD BasePageSize.SIZE) size fl.list with
  | .ok (a, l) => .ok (a, { list := l })
  | .error er => .error er

/-- Modelled from the spec: coalescing reinsertion of `[addr, addr+size)` into
the address-ordered free list (§4.2), merging with a region ending at `addr`,
a region starting at `addr + size`, or bridging both. -/
def insertRegion (addr size : Nat) : List FreeListEntry → List FreeListEntry
  | [] => [{ start := addr, end_ := addr + size }]
  | e :: rest =>
    if e.end_ = addr then
      match rest with
      | e2 :: rest2 =>
        if e2.start = addr + size then
          { start := e.start, end_ := e2.end_ } :: rest2
        else { start := e.start, end_ := addr + size } :: rest
      | [] => [{ start := e.start, end_ := addr + size }]
    else if addr + size = e.start then { start := addr, end_ := e.end_ } :: rest
    else if addr + size < e.start then
      { start := addr, end_ := addr + size } :: e :: rest
    else e :: insertRegion addr size rest

/-- Modelled from the spec: `FreeList::deallocate(addr, size)` (§4.2). -/
def FreeList.deallocate (fl : FreeList) (addr size : Nat) : FreeList :=
  { list := insertRegion addr size fl.list }

/-- `allocate` of `physicalmem.rs`: asserts `size > 0` and
`size % BasePageSize::SIZE == 0`, then delegates to the pool with no explicit
alignment; an `AllocError` from the pool is propagated by `?`. -/
def allocate (s : PhysMemState) (size : Nat) :
    PanicOr (Except AllocError Nat × PhysMemState) :=
  if 0 < size then
    if size % BasePageSize.SIZE = 0 then
      match s.physical_free_list.allocate size none with
      | .ok (addr, fl) => .ok (.ok addr, { s with physical_free_list := fl })
      | .error e => .ok (.error e, s)
    else .panicked "Size is not a multiple of the base page size"
  else .panicked "assertion failed: size > 0"

/-- `allocate_aligned` of `physicalmem.rs`: asserts `size > 0`,
`alignment > 0`, `size % alignment == 0` and
`alignment % BasePageSize::SIZE == 0`, then delegates with `Some(alignment)`. -/
def allocate_aligned (s : PhysMemState) (size alignment : Nat) :
    PanicOr (Except AllocError Nat × PhysMemState) :=
  if 0 < size then
    if 0 < alignment then
      if size % alignment = 0 then
        if alignment % BasePageSize.SIZE = 0 then
          match s.physical_free_list.allocate size (some alignment) with
          | .ok (addr, fl) => .ok (.ok addr, { s with physical_free_list := fl })
          | .error e => .ok (.error e, s)
        else .panicked "Alignment is not a multiple of the base page size"
      else .panicked "Size is not a multiple of the given alignment"
    else .panicked "assertion failed: alignment > 0"
  else .panicked "assertion failed: size > 0"

/-- `deallocate` of `physicalmem.rs`: asserts
`physical_address >= kernel_end_address`, `size > 0` and
`size % BasePageSize::SIZE == 0`, then returns the range to the pool. -/
def deallocate (env : BootEnv) (s : PhysMemState)
    (physical_address size : Nat) : PanicOr PhysMemState :=
  if env.kernel_end_address ≤ physical_address then
    if 0 < size then
      if size % BasePageSize.SIZE = 0 then
        .ok { s with
          physical_free_list :=
            s.physical_free_list.deallocate physical_address size }
      else .panicked "Size is not a multiple of the base page size"
    else .panicked "assertion failed: size > 0"
  else .panicked "Physical address is not >= KERNEL_END_ADDRESS"

/-- Size in bytes of one free region. -/
def regionSize (e : FreeListEntry) : Nat := e.end_ - e.start

/-- Total byte capacity currently held in the pool. -/
def FreeList.freeCapacity (fl : FreeList) : Nat :=
  (fl.list.map regionSize).sum

/-!
Helper lemmas shared by several claim theorems.
-/

/-- When the direct-boot detector reports not-applicable, the state component
of its result is the input state. -/
theorem uhyve_err_preserves (env : BootEnv) (s : PhysMemState)
    (h : (detect_from_uhyve env s).1 = .error ()) :
    (detect_from_uhyve env s).2 = s := by
  cases hu : env.is_uhyve <;> by_cases hl : env.limit = 0 <;>
    simp_all [detect_from_uhyve]

/-- When the emulated-boot detector reports not-applicable, the state component
of its result is the input state. -/
theorem qemu_err_preserves (env : BootEnv) (s : PhysMemState)
    (h : (detect_from_qemu env s).1 = .error ()) :
    (detect_from_qemu env s).2 = s := by
  by_cases hl : env.limit = 0 <;> simp_all [detect_from_qemu]

/-- Rounding down lands on a multiple of the granule. -/
theorem align_down_mod (n a : Nat) : align_down n a % a = 0 := by
  unfold align_down
  exact Nat.mul_mod_left _ _

/-- Rounding up lands on a multiple of the granule. -/
theorem align_up_mod (n a : Nat) : align_up n a % a = 0 := by
  unfold align_up
  exact align_down_mod _ _

/-- If no region of the list can hold an aligned carve-out of `sz` bytes, the
first-fit scan reports `OutOfMemory`. -/
theorem allocScan_error (align sz : Nat) (l : List FreeListEntry)
    (h : ∀ e ∈ l, ¬ (align_up e.start align + sz ≤ e.end_)) :
    allocScan align sz l = .error .OutOfMemory := by
  induction l with
  | nil => rfl
  | cons e rest ih =>
    have he := h e (by simp)
    have hrest : ∀ x ∈ rest, ¬ (align_up x.start align + sz ≤ x.end_) :=
      fun x hx => h x (by simp [hx])
    simp [allocScan, he, ih hrest]

/-- Any address produced by the first-fit scan is a multiple of the requested
alignment. -/
theorem allocScan_ok_aligned (align sz : Nat) (l : List FreeListEntry)
    (addr : Nat) (l2 : List FreeListEntry)
    (h : allocScan align sz l = .ok (addr, l2)) : addr % align = 0 := by
  induction l generalizing l2 with
  | nil => simp [allocScan] at h
  | cons e rest ih =>
    by_cases hc : align_up e.start align + sz ≤ e.end_
    · simp [allocScan, hc] at h
      rw [← h.1]
      exact align_up_mod _ _
    · simp [allocScan, hc] at h
      cases hr : allocScan align sz rest with
      | error er => rw [hr] at h; simp at h
      | ok p =>
        obtain ⟨a, r2⟩ := p
        rw [hr] at h
        simp at h
        obtain ⟨h1, h2⟩ := h
        subst h1
        exact ih r2 hr

/-!
Concrete boot environments used by the closed theorems below.
-/

/-- An emulated-boot environment with `R < B < S < K < L`:
`R = 0x1000`, `B = 0x2800`, `S = 0x50000`, `T = 0x8000`, `K = 0x90000`,
`L = 0x100000`. The three carved regions are `[0x1000, 0x2000)` (0x1000 bytes),
`[0x3000, 0x48000)` (0x45000 bytes) and `[0x90000, 0x100000)` (0x70000 bytes),
summing to 0xB6000 bytes. -/
def envQemu : BootEnv :=
  { is_uhyve := false, limit := 0x100000, boot_info_address := 0x2800,
    ram_address := 0x1000, kernel_start_address := 0x50000,
    kernel_end_address := 0x90000, kernel_stack_size := 0x8000 }

/-- The direct-boot scenario of the spec: limit `L = 0x10000000` and kernel end
`K = 0x01000000`. -/
def envUhyve : BootEnv :=
  { is_uhyve := true, limit := 0x10000000, boot_info_address := 0x2800,
    ram_address := 0x1000, kernel_start_address := 0x00900000,
    kernel_end_address := 0x01000000, kernel_stack_size := 0x8000 }

/-- An environment where neither detector applies: the reported limit is 0. -/
def envNoProtocol : BootEnv :=
  { is_uhyve := false, limit := 0, boot_info_address := 0x2800,
    ram_address := 0x1000, kernel_start_address := 0x50000,
    kernel_end_address := 0x90000, kernel_stack_size := 0x8000 }

/-!
Claim theorems.
-/

/-- C9: whenever the direct-boot detector reports not-applicable, it returns
without modifying any state — the free-region pool and the total-memory counter
are exactly as before the call. -/
theorem detect_from_uhyve_not_applicable_preserves_state (env : BootEnv)
    (s : PhysMemState) (h : (detect_from_uhyve env s).1 = .error ()) :
    (detect_from_uhyve env s).2 = s :=
  uhyve_err_preserves env s h

/-- Witness for C9: a non-uhyve environment leaves the initial state intact. -/
theorem detect_from_uhyve_not_applicable_preserves_state_witness :
    (detect_from_uhyve envQemu initialState).2 = initialState :=
  detect_from_uhyve_not_applicable_preserves_state envQemu initialState rfl

/-- C10: the counter starts at zero, and a detector that fails leaves the
counter unchanged, so before `init` (or before any detector has succeeded)
`total_memory_size` returns 0. -/
theorem total_memory_size_zero_before_success (env : BootEnv)
    (s : PhysMemState)
    (h1 : (detect_from_uhyve env s).1 = .error ())
    (h2 : (detect_from_qemu env s).1 = .error ()) :
    total_memory_size initialState = 0 ∧
    total_memory_size (detect_from_uhyve env s).2 = total_memory_size s ∧
    total_memory_size (detect_from_qemu env s).2 = total_memory_size s := by
  refine ⟨rfl, ?_, ?_⟩
  · rw [uhyve_err_preserves env s h1]
  · rw [qemu_err_preserves env s h2]

/-- Witness for C10: with a zero limit both detectors fail and the counter of
the initial state stays 0. -/
theorem total_memory_size_zero_before_success_witness :
    total_memory_size initialState = 0 ∧
    total_memory_size (detect_from_uhyve envNoProtocol initialState).2 =
      total_memory_size initialState ∧
    total_memory_size (detect_from_qemu envNoProtocol initialState).2 =
      total_memory_size initialState :=
  total_memory_size_zero_before_success envNoProtocol initialState rfl rfl

/-- C7: `init` tries the direct-boot detector first; only if it reports
not-applicable does it try the emulated-boot detector; and if both report
not-applicable it fails fatally with the diagnostic message — no third
fallback, no partial success. -/
theorem init_tries_uhyve_then_qemu_else_fatal (env : BootEnv)
    (s : PhysMemState) :
    ((detect_from_uhyve env s).1 = .ok () →
        init env s = .ok (detect_from_uhyve env s).2) ∧
    ((detect_from_uhyve env s).1 = .error () →
        (detect_from_qemu env s).1 = .ok () →
        init env s = .ok (detect_from_qemu env s).2) ∧
    ((detect_from_uhyve env s).1 = .error () →
        (detect_from_qemu env s).1 = .error () →
        init env s = .error "Unable to determine physical address space!") := by
  cases hu : env.is_uhyve <;> by_cases hl : env.limit = 0 <;>
    simp [init, detect_from_uhyve, detect_from_qemu, hu, hl]

/-- Witness for C7: in the uhyve environment `init` returns the direct-boot
detector's state, and with a zero limit `init` fails with the diagnostic. -/
theorem init_tries_uhyve_then_qemu_else_fatal_witness :
    init envUhyve initialState = .ok (detect_from_uhyve envUhyve initialState).2 ∧
    init envNoProtocol initialState =
      .error "Unable to determine physical address space!" :=
  ⟨(init_tries_uhyve_then_qemu_else_fatal envUhyve initialState).1 rfl,
   (init_tries_uhyve_then_qemu_else_fatal envNoProtocol initialState).2.2 rfl rfl⟩

/-- C3: in a direct-boot environment with a positive limit `L` and kernel end
`K ≤ L`, `init` seeds the pool with exactly the single region `[K, L)` and the
counter with `L - K`. -/
theorem init_uhyve_single_region (env : BootEnv)
    (hu : env.is_uhyve = true) (hl : 0 < env.limit)
    (hk : env.kernel_end_address ≤ env.limit) :
    ∃ s2, init env initialState = .ok s2 ∧
      s2.physical_free_list.list =
        [{ start := env.kernel_end_address, end_ := env.limit }] ∧
      total_memory_size s2 = env.limit - env.kernel_end_address := by
  have hl2 : env.limit ≠ 0 := Nat.pos_iff_ne_zero.mp hl
  refine ⟨{ physical_free_list :=
              { list := [{ start := env.kernel_end_address, end_ := env.limit }] },
            total_memory := env.limit - env.kernel_end_address }, ?_, rfl, rfl⟩
  simp [init, detect_from_uhyve, hu, hl2, initialState, FreeList.push_back]

/-- Witness for C3: the spec's direct-boot scenario, `L = 0x10000000`,
`K = 0x01000000`, total `0x0F000000`. -/
theorem init_uhyve_single_region_witness :
    ∃ s2, init envUhyve initialState = .ok s2 ∧
      s2.physical_free_list.list =
        [{ start := envUhyve.kernel_end_address, end_ := envUhyve.limit }] ∧
      total_memory_size s2 = 0x0F000000 := by
  obtain ⟨s2, h1, h2, h3⟩ :=
    init_uhyve_single_region envUhyve rfl (by decide) (by decide)
  exact ⟨s2, h1, h2, by rw [h3]; rfl⟩

/-- C4: with a positive limit, the emulated-boot detector seeds the pool with
exactly the three regions
`[ram_base, align_down(boot_info, page))`,
`[align_down(boot_info, page) + page, kernel_start - stack_size)` and
`[kernel_end, limit)`, in that order. -/
theorem detect_from_qemu_three_regions (env : BootEnv) (hl : 0 < env.limit) :
    (detect_from_qemu env initialState).1 = .ok () ∧
    (detect_from_qemu env initialState).2.physical_free_list.list =
      [{ start := env.ram_address,
         end_ := align_down env.boot_info_address BasePageSize.SIZE },
       { start := align_down env.boot_info_address BasePageSize.SIZE
                    + BasePageSize.SIZE,
         end_ := env.kernel_start_address - env.kernel_stack_size },
       { start := env.kernel_end_address, end_ := env.limit }] := by
  have hl2 : env.limit ≠ 0 := Nat.pos_iff_ne_zero.mp hl
  simp [detect_from_qemu, hl2, initialState, FreeList.push_back]

/-- Witness for C4: the concrete emulated-boot environment. -/
theorem detect_from_qemu_three_regions_witness :
    (detect_from_qemu envQemu initialState).1 = .ok () ∧
    (detect_from_qemu envQemu initialState).2.physical_free_list.list =
      [{ start := envQemu.ram_address,
         end_ := align_down envQemu.boot_info_address BasePageSize.SIZE },
       { start := align_down envQemu.boot_info_address BasePageSize.SIZE
                    + BasePageSize.SIZE,
         end_ := envQemu.kernel_start_address - envQemu.kernel_stack_size },
       { start := envQemu.kernel_end_address, end_ := envQemu.limit }] :=
  detect_from_qemu_three_regions envQemu (by decide)

/-- C1 (code-bug evidence): in the emulated-boot environment `envQemu` the
three carved regions hold 0xB6000 free bytes in total, yet after `init` the
counter reads 0x70000 — only the size of the last region computed, because
`detect_from_qemu` overwrites `total` instead of accumulating it. So
`total_memory_size()` does not equal the summed size of the three regions. -/
theorem detect_from_qemu_total_is_last_region_only :
    ∃ s2, init envQemu initialState = .ok s2 ∧
      FreeList.freeCapacity s2.physical_free_list = 0xB6000 ∧
      total_memory_size s2 = 0x70000 ∧
      total_memory_size s2 ≠ FreeList.freeCapacity s2.physical_free_list := by
  refine ⟨{ physical_free_list :=
              { list := [{ start := 0x1000, end_ := 0x2000 },
                         { start := 0x3000, end_ := 0x48000 },
                         { start := 0x90000, end_ := 0x100000 }] },
            total_memory := 0x70000 }, rfl, rfl, rfl, by decide⟩

/-- C2: `allocate(0)`, `allocate(size)` with a size that is not a multiple of
the base page size, and `deallocate(addr, size)` with `addr` below the kernel
end address each trigger a fatal contract violation (a panic), never a silent
no-op and never a returned error value. -/
theorem contract_violations_are_fatal (env : BootEnv) (s : PhysMemState)
    (sz addr dsz : Nat)
    (hsz : sz % BasePageSize.SIZE ≠ 0)
    (haddr : addr < env.kernel_end_address) :
    (allocate s 0).isPanicked = true ∧
    (allocate s sz).isPanicked = true ∧
    (deallocate env s addr dsz).isPanicked = true := by
  have hpos : 0 < sz := by
    rcases Nat.eq_zero_or_pos sz with h | h
    · subst h
      simp [BasePageSize.SIZE] at hsz
    · exact h
  have hge : ¬ env.kernel_end_address ≤ addr := Nat.not_le.mpr haddr
  refine ⟨?_, ?_, ?_⟩
  · simp [allocate, PanicOr.isPanicked]
  · simp [allocate, hpos, hsz, PanicOr.isPanicked]
  · simp [deallocate, hge, PanicOr.isPanicked]

/-- Witness for C2: size 5 is page-misaligned, and address 0 lies below the
kernel end address of `envQemu`. -/
theorem contract_violations_are_fatal_witness :
    (allocate initialState 0).isPanicked = true ∧
    (allocate initialState 5).isPanicked = true ∧
    (deallocate envQemu initialState 0 0x1000).isPanicked = true :=
  contract_violations_are_fatal envQemu initialState 5 0 0x1000
    (by decide) (by decide)

/-- A one-region pool too small for the requests used in the C5 witness. -/
def oomState : PhysMemState :=
  { physical_free_list := { list := [{ start := 0x1000, end_ := 0x2000 }] },
    total_memory := 0x1000 }

/-- C5: under the size/alignment contracts, when no free region can satisfy
the request, `allocate` and `allocate_aligned` return the distinct
`OutOfMemory` error value to the caller with the state untouched — no fatal
fault, no blocking or retrying. -/
theorem exhaustion_returns_out_of_memory (s : PhysMemState) (sz al : Nat)
    (hs : 0 < sz) (hps : sz % BasePageSize.SIZE = 0)
    (ha : 0 < al) (hsa : sz % al = 0) (hap : al % BasePageSize.SIZE = 0)
    (hno : ∀ e ∈ s.physical_free_list.list,
      ¬ (align_up e.start BasePageSize.SIZE + sz ≤ e.end_))
    (hno2 : ∀ e ∈ s.physical_free_list.list,
      ¬ (align_up e.start al + sz ≤ e.end_)) :
    allocate s sz = .ok (.error .OutOfMemory, s) ∧
    allocate_aligned s sz al = .ok (.error .OutOfMemory, s) := by
  constructor
  · have hscan := allocScan_error BasePageSize.SIZE sz s.physical_free_list.list hno
    simp [allocate, hs, hps, FreeList.allocate, hscan]
  · have hscan := allocScan_error al sz s.physical_free_list.list hno2
    simp [allocate_aligned, hs, ha, hsa, hap, FreeList.allocate, hscan]

/-- Witness for C5: a 0x2000-byte request cannot fit in the single
0x1000-byte region of `oomState`. -/
theorem exhaustion_returns_out_of_memory_witness :
    allocate oomState 0x2000 = .ok (.error .OutOfMemory, oomState) ∧
    allocate_aligned oomState 0x2000 0x1000 =
      .ok (.error .OutOfMemory, oomState) :=
  exhaustion_returns_out_of_memory oomState 0x2000 0x1000
    (by decide) (by decide) (by decide) (by decide) (by decide)
    (by decide) (by decide)

/-- A pool whose single region starts misaligned, used in the C6 witness. -/
def alignState : PhysMemState :=
  { physical_free_list := { list := [{ start := 0x1800, end_ := 0x10000 }] },
    total_memory := 0xE800 }

/-- C6: every address successfully returned by `allocate(size)` is a multiple
of the base page size, and every address successfully returned by
`allocate_aligned(size, alignment)` is a multiple of `alignment`. -/
theorem allocate_results_are_aligned (s : PhysMemState) (sz al : Nat) :
    (∀ addr s2, allocate s sz = .ok (.ok addr, s2) →
        addr % BasePageSize.SIZE = 0) ∧
    (∀ addr s2, allocate_aligned s sz al = .ok (.ok addr, s2) →
        addr % al = 0) := by
  constructor
  · intro addr s2 h
    by_cases h1 : 0 < sz
    case neg => simp [allocate, h1] at h
    by_cases h2 : sz % BasePageSize.SIZE = 0
    case neg => simp [allocate, h1, h2] at h
    simp only [allocate, h1, h2, FreeList.allocate, Option.getD_none,
      if_true, if_pos] at h
    cases hr : allocScan BasePageSize.SIZE sz s.physical_free_list.list with
    | error er => rw [hr] at h; simp at h
    | ok p =>
      obtain ⟨a, l2⟩ := p
      rw [hr] at h
      simp at h
      obtain ⟨ha2, -⟩ := h
      subst ha2
      exact allocScan_ok_aligned BasePageSize.SIZE sz
        s.physical_free_list.list a l2 hr
  · intro addr s2 h
    by_cases h1 : 0 < sz
    case neg => simp [allocate_aligned, h1] at h
    by_cases h2 : 0 < al
    case neg => simp [allocate_aligned, h1, h2] at h
    by_cases h3 : sz % al = 0
    case neg => simp [allocate_aligned, h1, h2, h3] at h
    by_cases h4 : al % BasePageSize.SIZE = 0
    case neg => simp [allocate_aligned, h1, h2, h3, h4] at h
    simp only [allocate_aligned, h1, h2, h3, h4, FreeList.allocate,
      Option.getD_some, if_true, if_pos] at h
    cases hr : allocScan al sz s.physical_free_list.list with
    | error er => rw [hr] at h; simp at h
    | ok p =>
      obtain ⟨a, l2⟩ := p
      rw [hr] at h
      simp at h
      obtain ⟨ha2, -⟩ := h
      subst ha2
      exact allocScan_ok_aligned al sz s.physical_free_list.list a l2 hr

/-- Witness for C6: from `alignState`, `allocate 0x1000` returns `0x2000`
(page-aligned) and `allocate_aligned 0x4000 0x2000` returns `0x2000`
(a multiple of `0x2000`). -/
theorem allocate_results_are_aligned_witness :
    (0x2000 : Nat) % BasePageSize.SIZE = 0 ∧ (0x2000 : Nat) % 0x2000 = 0 := by
  constructor
  · exact (allocate_results_are_aligned alignState 0x1000 0x1000).1 0x2000
      { physical_free_list :=
          { list := [{ start := 0x1800, end_ := 0x2000 },
                     { start := 0x3000, end_ := 0x10000 }] },
        total_memory := 0xE800 } rfl
  · exact (allocate_results_are_aligned alignState 0x4000 0x2000).2 0x2000
      { physical_free_list :=
          { list := [{ start := 0x1800, end_ := 0x2000 },
                     { start := 0x6000, end_ := 0x10000 }] },
        total_memory := 0xE800 } rfl

/-- C8 counterexample: at `size = 0` and `alignment = BasePageSize.SIZE`,
none of the claim's three fatal conditions holds (`alignment ≠ 0`,
`size % alignment = 0`, `alignment % page_size = 0`), yet the call does not
delegate to the pool — it trips the shared `size > 0` assertion and panics. -/
theorem allocate_aligned_zero_size_panics :
    ¬ (BasePageSize.SIZE = 0 ∨ (0 : Nat) % BasePageSize.SIZE ≠ 0 ∨
        BasePageSize.SIZE % BasePageSize.SIZE ≠ 0) ∧
    (allocate_aligned initialState 0 BasePageSize.SIZE).isPanicked = true := by
  decide

/-- C8 (amended): `allocate_aligned(size, alignment)` triggers a fatal
contract violation if `alignment = 0`, or `size` is not a multiple of
`alignment`, or `alignment` is not a multiple of the base page size, or also
if `size = 0` (the size contract shared with `allocate`); with all four
contracts satisfied it delegates to the pool with the explicit alignment
`Some(alignment)`. -/
theorem allocate_aligned_contracts (s : PhysMemState) (sz al : Nat) :
    ((sz = 0 ∨ al = 0 ∨ sz % al ≠ 0 ∨ al % BasePageSize.SIZE ≠ 0) →
        (allocate_aligned s sz al).isPanicked = true) ∧
    (0 < sz → 0 < al → sz % al = 0 → al % BasePageSize.SIZE = 0 →
        allocate_aligned s sz al =
          match s.physical_free_list.allocate sz (some al) with
          | .ok (addr, fl) => .ok (.ok addr, { s with physical_free_list := fl })
          | .error e => .ok (.error e, s)) := by
  constructor
  · intro h
    have hfatal : ¬ (0 < sz ∧ 0 < al ∧ sz % al = 0 ∧
        al % BasePageSize.SIZE = 0) := by
      rintro ⟨hs, ha, hsa, hap⟩
      rcases h with h | h | h | h
      · omega
      · omega
      · exact h hsa
      · exact h hap
    by_cases hs : 0 < sz
    case neg => simp [allocate_aligned, hs, PanicOr.isPanicked]
    by_cases ha : 0 < al
    case neg => simp [allocate_aligned, hs, ha, PanicOr.isPanicked]
    by_cases hsa : sz % al = 0
    case neg => simp [allocate_aligned, hs, ha, hsa, PanicOr.isPanicked]
    by_cases hap : al % BasePageSize.SIZE = 0
    case neg => simp [allocate_aligned, hs, ha, hsa, hap, PanicOr.isPanicked]
    exact absurd ⟨hs, ha, hsa, hap⟩ hfatal
  · intro hs ha hsa hap
    simp [allocate_aligned, hs, ha, hsa, hap]

/-- Witness for C8 (amended): `allocate_aligned(0, 0x1000)` panics, and
`allocate_aligned(0x1000, 0x1000)` on the empty pool delegates and reports
`OutOfMemory`. -/
theorem allocate_aligned_contracts_witness :
    (allocate_aligned initialState 0 0x1000).isPanicked = true ∧
    allocate_aligned initialState 0x1000 0x1000 =
      .ok (.error .OutOfMemory, initialState) := by
  constructor
  · exact (allocate_aligned_contracts initialState 0 0x1000).1 (Or.inl rfl)
  · have h := (allocate_aligned_contracts initialState 0x1000 0x1000).2
      (by decide) (by decide) (by decide) (by decide)
    rw [h]
    rfl
